import Mathlib

/-!
Shallow embedding of the tool-contract derivation and invocation engine of
the `minimulllm` repository, centred on `src/function_call.py`
(`LLMToolParser`, `LLMToolManager`), the tool definitions of
`src/tools.py`, and the conversation loop of `example.py`
(`code_generate`) together with the message bookkeeping of
`src/async_client.py` (`DeepSeekToolUse.tool`).

Python values that flow through the engine (JSON schemas, tool results,
parsed JSON argument maps) are modelled by the inductive `JsonV`; Python
exceptions by `PyErr`; a Python `raise` that escapes a function is
modelled by `Except.error`, a normal return by `Except.ok`.
-/

/-- JSON-like Python values: strings, integers, booleans, `None`,
lists, and dicts (as ordered key/value lists, matching Python dict
insertion order). -/
inductive JsonV where
  | s (v : String)
  | n (v : Int)
  | b (v : Bool)
  | null
  | arr (xs : List JsonV)
  | obj (kvs : List (String × JsonV))

/-- Python exceptions raised by the engine or by tool callables.
`typeError` and `valueError` model `TypeError` / `ValueError` with their
message; `jsonDecodeError` models `json.JSONDecodeError` (its message);
`other` models an arbitrary exception of a tool callable
(class name, message). -/
inductive PyErr where
  | typeError (msg : String)
  | valueError (msg : String)
  | jsonDecodeError (msg : String)
  | other (exnClass msg : String)
deriving DecidableEq

/-- Python type annotations as seen through `typing.get_origin` /
`typing.get_args` in `function_call.py`:
`pyStr`/`pyInt`/`pyBool`/`pyFloat` are the builtin primitive classes,
`pyNone` is `type(None)` (`NoneType`), `pyList args` / `pyDict args` are
annotations whose origin is `list` / `dict` with the given type
arguments (`[]` models the bare `typing.List` / `typing.Dict`),
`pyUnion args` is a `Union[...]` annotation (so `Optional[T]` is
`pyUnion [T, pyNone]`), and `pyClass name reprStr` is any other bare
class (`name` models `__name__`, `reprStr` models `str(cls)`,
e.g. `<class 'Foo'>`). -/
inductive PyType where
  | pyStr
  | pyInt
  | pyBool
  | pyFloat
  | pyNone
  | pyList (args : List PyType)
  | pyDict (args : List PyType)
  | pyUnion (args : List PyType)
  | pyClass (name reprStr : String)

/-- Association-list lookup, modelling Python `dict` key lookup
(`d[k]` / `k in d`) on dicts represented as ordered key/value lists. -/
def alookup {α : Type} : List (String × α) → String → Option α
  | [], _ => none
  | (k', v) :: t, k => if k' = k then some v else alookup t k

/-- Python `d[k] = v` on a dict represented as an ordered key/value
list: replaces the value of an existing key in place, otherwise appends
the new pair at the end (dict insertion-order semantics). -/
def insertOrReplace {α : Type} : List (String × α) → String → α → List (String × α)
  | [], k, v => [(k, v)]
  | (k', v') :: t, k, v => if k' = k then (k, v) :: t else (k', v') :: insertOrReplace t k v

/-- Number of entries of an association list with the given key. -/
def countKey {α : Type} : List (String × α) → String → Nat
  | [], _ => 0
  | (k', _) :: t, k => (if k' = k then 1 else 0) + countKey t k

/-- Whether `needle` occurs as a contiguous subsequence of `hay`. -/
def containsSeq (needle : List Char) : List Char → Bool
  | [] => needle.isEmpty
  | c :: t => needle.isPrefixOf (c :: t) || containsSeq needle t

/-- Python's `sub in s` substring test. -/
def strContains (hay needle : String) : Bool :=
  containsSeq needle.toList hay.toList

/-- Python's whitespace set for `str.strip` / `str.splitlines`. -/
def pyIsSpace (c : Char) : Bool :=
  c = ' ' || c = '\t' || c = '\n' || c = '\r' || c = '\x0b' || c = '\x0c'

/-- Python's `str.strip()`: whitespace removed from both ends. -/
def pyStrip (s : String) : String :=
  String.mk (((s.toList.dropWhile pyIsSpace).reverse.dropWhile pyIsSpace).reverse)

/-- Python's `str.splitlines()` on newline-separated text (the
docstrings of this code use plain `\n` separators): splits at each
newline, with no trailing empty line for text ending in a newline. -/
def splitlinesChars : List Char → List (List Char)
  | [] => []
  | c :: t =>
    if c = '\n' then [] :: splitlinesChars t
    else match splitlinesChars t with
      | [] => [[c]]
      | l :: ls => (c :: l) :: ls

/-- `str.splitlines()` as a `String` operation. -/
def pySplitlines (s : String) : List String :=
  (splitlinesChars s.toList).map String.mk

/-- Python's `x in ys` membership test on a list of strings. -/
def memB (x : String) : List String → Bool
  | [] => false
  | y :: t => (y == x) || memB x t

/-- Boolean list-subset test: every element of `xs` occurs in `ys`. -/
def subsetB : List String → List String → Bool
  | [], _ => true
  | x :: t, ys => memB x ys && subsetB t ys

/-- The comprehension `[p for p in type_hints.keys() if p != "return"]`
used throughout `function_call.py` (`all_params`). -/
def nonReturnKeys : List (String × PyType) → List String
  | [] => []
  | (k, _) :: t => if k = "return" then nonReturnKeys t else k :: nonReturnKeys t

/-- Whether a `PyType` is `type(None)` (identity test `arg is type(None)`). -/
def isNoneType : PyType → Bool
  | .pyNone => true
  | _ => false

mutual

/-- Models Python `str(typ)` on a type annotation object (used in the
error messages of `function_call.py`). At the top level a bare class
prints as `<class '...'>`; inside `typing` brackets classes print by
bare name. Container renderings follow the generic-alias spelling; the
theorems below only rely on the `pyClass` and `pyUnion` renderings. -/
def pyTypeStr : Bool → PyType → String
  | true, .pyStr => "<class \x27str\x27>"
  | false, .pyStr => "str"
  | true, .pyInt => "<class \x27int\x27>"
  | false, .pyInt => "int"
  | true, .pyBool => "<class \x27bool\x27>"
  | false, .pyBool => "bool"
  | true, .pyFloat => "<class \x27float\x27>"
  | false, .pyFloat => "float"
  | true, .pyNone => "<class \x27NoneType\x27>"
  | false, .pyNone => "NoneType"
  | true, .pyClass _ reprStr => reprStr
  | false, .pyClass name _ => name
  | _, .pyList [] => "typing.List"
  | _, .pyList (t :: ts) => "list[" ++ pyTypeStrJoin (t :: ts) ++ "]"
  | _, .pyDict [] => "typing.Dict"
  | _, .pyDict (t :: ts) => "dict[" ++ pyTypeStrJoin (t :: ts) ++ "]"
  | _, .pyUnion ts => "typing.Union[" ++ pyTypeStrJoin ts ++ "]"
termination_by structural _ t => t

/-- `", ".join` over the bracket renderings of the type arguments. -/
def pyTypeStrJoin : List PyType → String
  | [] => ""
  | [t] => pyTypeStr false t
  | t :: ts => pyTypeStr false t ++ ", " ++ pyTypeStrJoin ts
termination_by structural l => l

end

mutual

/-- `LLMToolParser.get_type_name` (function_call.py:363-376): `Union`
joins member names with " | ", a class yields `__name__`, anything else
yields `str(typ)`. -/
def get_type_name : PyType → String
  | .pyUnion ts => unionTypeNames ts
  | .pyStr => "str"
  | .pyInt => "int"
  | .pyBool => "bool"
  | .pyFloat => "float"
  | .pyNone => "NoneType"
  | .pyClass name _ => name
  | .pyList ts => pyTypeStr true (.pyList ts)
  | .pyDict ts => pyTypeStr true (.pyDict ts)
termination_by structural t => t

/-- `" | ".join` over the member names of a `Union`. -/
def unionTypeNames : List PyType → String
  | [] => ""
  | [t] => get_type_name t
  | t :: ts => get_type_name t ++ " | " ++ unionTypeNames ts
termination_by structural l => l

end

/-- The outcome of calling a Python callable with keyword arguments:
either a normal return value or a raised exception. -/
inductive CallOutcome where
  | ret (v : JsonV)
  | exn (e : PyErr)

/-- A Python callable as the engine observes it:
`qualname` models `__qualname__`; `params` the formal parameter list of
the signature; `doc` models `__doc__`; `hints` models
`get_type_hints(func)` — annotated parameters in declaration order with
the return annotation under the key "return" (parameters lacking an
annotation are simply absent, exactly as `get_type_hints` omits them);
`behavior` models invoking the callable with a parsed keyword-argument
map (`func(**arguments)`). -/
structure PyFunc where
  qualname : String
  params : List String
  doc : Option String
  hints : List (String × PyType)
  behavior : List (String × JsonV) → CallOutcome

namespace LLMToolParser

/-- `LLMToolParser.validate_function` (function_call.py:155-159):
raises `TypeError` when the argument is not callable. Every `PyFunc` of
the embedding models a callable, so this never fails. -/
def validate_function (_f : PyFunc) : Except PyErr Unit :=
  .ok ()

/-- `LLMToolParser.validate_type_hints` (function_call.py:161-169):
raises `TypeError` when `get_type_hints` is empty or lacks a "return"
key; otherwise returns the hints. -/
def validate_type_hints (f : PyFunc) : Except PyErr (List (String × PyType)) :=
  if f.hints.isEmpty then
    .error (.typeError ("関数に型ヒントがありません: " ++ f.qualname))
  else if (alookup f.hints "return").isNone then
    .error (.typeError ("関数に戻り値の型ヒントがありません: " ++ f.qualname))
  else
    .ok f.hints

/-- The `ValueError` message raised by `validate_parameters` and
`validate_required` for a parameter absent from the signature. -/
def unknownParamMsg (param name : String) : String :=
  "引数 \x27" ++ param ++ "\x27 は関数 \x27" ++ name ++ "\x27 に存在しません。"

/-- The loop of `validate_parameters` / `validate_required`: raises on
the first listed parameter that is not among `allParams`. -/
def firstMissingParam (keys allParams : List String) (name : String) : Except PyErr Unit :=
  match keys with
  | [] => .ok ()
  | p :: t =>
    if memB p allParams then firstMissingParam t allParams name
    else .error (.valueError (unknownParamMsg p name))

/-- `LLMToolParser.validate_parameters` (function_call.py:171-177). -/
def validate_parameters (parameters : List (String × JsonV))
    (typeHints : List (String × PyType)) (name : String) : Except PyErr Unit :=
  firstMissingParam (parameters.map (·.1)) (nonReturnKeys typeHints) name

/-- `LLMToolParser.validate_required` (function_call.py:179-184). -/
def validate_required (required allParams : List String) (name : String) : Except PyErr Unit :=
  firstMissingParam required allParams name

/-- `LLMToolParser.extract_non_none_type_if_optional`
(function_call.py:242-260): a `Union` containing `NoneType` with exactly
one other member is unwrapped to that member; a `Union` containing
`NoneType` with several other members raises `ValueError`; every other
type is returned unchanged. -/
def extract_non_none_type_if_optional (typ : PyType) : Except PyErr PyType :=
  match typ with
  | .pyUnion args =>
    if args.any isNoneType then
      match args.filter (fun a => !isNoneType a) with
      | [t] => .ok t
      | _ => .error (.valueError
          ("サポートされていない複数Union+NoneTypeです: " ++ pyTypeStr true (.pyUnion args)))
    else .ok typ
  | _ => .ok typ

/-- `LLMToolParser.convert_python_type_to_json_schema_type`
(function_call.py:262-326). Primitives map to their JSON schema kind
names; `list`-origin annotations to array schemas (recursing on the
item type); `dict`-origin annotations with two arguments to object
schemas with `additionalProperties` (recursing on the value type), with
other argument counts to a bare object schema; any remaining `Union`
raises `ValueError`, and so does any other type (bare classes,
`NoneType`, the bare builtin `list`/`dict` classes, which are modelled
as `pyClass`). -/
def convert_python_type_to_json_schema_type : PyType → Except PyErr JsonV
  | .pyStr => .ok (.s "string")
  | .pyInt => .ok (.s "integer")
  | .pyBool => .ok (.s "boolean")
  | .pyFloat => .ok (.s "number")
  | .pyList [] => .ok (.obj [("type", .s "array"), ("items", .obj [])])
  | .pyList (t :: rest) =>
    match convert_python_type_to_json_schema_type t with
    | .error e => .error e
    | .ok (.s itemName) =>
      .ok (.obj [("type", .s "array"), ("items", .obj [("type", .s itemName)])])
    | .ok (.obj kvs) => .ok (.obj [("type", .s "array"), ("items", .obj kvs)])
    | .ok _ => .error (.valueError
        ("サポートされていない型です: " ++ pyTypeStr true (.pyList (t :: rest))))
  | .pyDict [k, v] =>
    match convert_python_type_to_json_schema_type v with
    | .error e => .error e
    | .ok j =>
      let _ := k
      .ok (.obj [("type", .s "object"), ("additionalProperties", j)])
  | .pyDict _ => .ok (.obj [("type", .s "object")])
  | .pyUnion ts => .error (.valueError
      ("サポートされていない複数Unionです: " ++ pyTypeStr true (.pyUnion ts)))
  | .pyNone => .error (.valueError
      ("サポートされていない型です: " ++ pyTypeStr true .pyNone))
  | .pyClass nm reprStr =>
    let _ := nm
    .error (.valueError ("サポートされていない型です: " ++ reprStr))
termination_by structural t => t

end LLMToolParser

namespace LLMToolParser

/-- The `__name__`-or-`str` rendering used when building messages that
interpolate `t.__name__` (the `doc` decorator and
`get_description`'s template): classes yield `__name__`, other
annotation objects their `str` form. -/
def typeDunderName (t : PyType) : String :=
  match t with
  | .pyStr => "str"
  | .pyInt => "int"
  | .pyBool => "bool"
  | .pyFloat => "float"
  | .pyNone => "NoneType"
  | .pyClass name _ => name
  | other => pyTypeStr true other

/-- The `ValueError` message of `get_description`
(function_call.py:345-361): a "fix your tool" template showing the
current signature and a docstring example. -/
def noDocstringMsg (name : String) (hints : List (String × PyType)) : String :=
  let argText := String.intercalate ", "
    ((hints.filter (fun p => p.1 ≠ "return")).map fun p => p.1 ++ ": " ++ typeDunderName p.2)
  let returnTypeName := match alookup hints "return" with
    | some t => typeDunderName t
    | none => "None"
  let argDocs := String.intercalate ", "
    ((hints.filter (fun p => p.1 ≠ "return")).map fun p =>
      p.1 ++ " (" ++ typeDunderName p.2 ++ "): " ++ p.1 ++ "の説明")
  "関数 \x27" ++ name ++ "\x27 にdocstringがありません。以下のようにdocstringを追加してください:\n\n" ++
  "現在の関数定義:\n" ++
  "def " ++ name ++ "(" ++ argText ++ ") -> " ++ returnTypeName ++ ":\n" ++
  "    # ここにdocstringを追加してください\n    ...\n\n" ++
  "例:\n" ++
  "def " ++ name ++ "(" ++ argText ++ ") -> " ++ returnTypeName ++ ":\n" ++
  "    \"\"\"\n    " ++ name ++ " の説明をここに記述します。\n\n" ++
  "    Args:\n        " ++ argDocs ++ "\n\n" ++
  "    Returns:\n        " ++ returnTypeName ++ ": 戻り値の説明\n    \"\"\"\n    ..."

/-- `LLMToolParser.get_description` (function_call.py:328-361): the
stripped docstring when one exists, otherwise a `ValueError` carrying a
docstring template. -/
def get_description (f : PyFunc) (name : String) : Except PyErr String :=
  match f.doc with
  | some d => .ok (pyStrip d)
  | none => .error (.valueError (noDocstringMsg name f.hints))

/-- The docstring scan of `generate_parameters`
(function_call.py:218-225): the first docstring line containing
`"<param> ("`, stripped; otherwise the supplied default. Python's
`splitlines` is modelled as splitting on newline. -/
def docLineFor (docStr param default : String) : String :=
  match (pySplitlines docStr).find? (fun line => strContains line (param ++ " (")) with
  | some line => pyStrip line
  | none => default

/-- `LLMToolParser.generate_parameters` (function_call.py:186-240),
iterating over the given hints: "return" entries are skipped; each
parameter type is first unwrapped by
`extract_non_none_type_if_optional`, converted to a JSON schema type,
and paired with a description (docstring line or
`"<name>: <type>"`); a primitive conversion result becomes a
`"type"` field, a dict result is merged into the parameter schema. -/
def generate_parameters_go (f : PyFunc) :
    List (String × PyType) → Except PyErr (List (String × JsonV))
  | [] => .ok []
  | (param, ptype) :: rest =>
    if param = "return" then generate_parameters_go f rest
    else
      match extract_non_none_type_if_optional ptype with
      | .error e => .error e
      | .ok pt =>
        match convert_python_type_to_json_schema_type pt with
        | .error e => .error e
        | .ok jst =>
          let baseDesc := param ++ ": " ++ get_type_name pt
          let desc := match f.doc with
            | none => baseDesc
            | some d => docLineFor d param baseDesc
          let fields := ("description", JsonV.s desc) ::
            (match jst with
             | .s tname => [("type", JsonV.s tname)]
             | .obj kvs => kvs
             | _ => [])
          match generate_parameters_go f rest with
          | .error e => .error e
          | .ok restParams => .ok ((param, JsonV.obj fields) :: restParams)

/-- `LLMToolParser.generate_parameters` entry point: iterates over
`get_type_hints(func)`. -/
def generate_parameters (f : PyFunc) : Except PyErr (List (String × JsonV)) :=
  generate_parameters_go f f.hints

/-- `LLMToolParser.validate` (function_call.py:122-153): function
check, type-hint check, then the optional `parameters` and `required`
override checks against the signature's parameter set. -/
def validate (f : PyFunc) (parameters : Option (List (String × JsonV)))
    (required : Option (List String)) : Except PyErr Unit :=
  match validate_function f with
  | .error e => .error e
  | .ok _ =>
    match validate_type_hints f with
    | .error e => .error e
    | .ok typeHints =>
      match (match parameters with
             | some ps => validate_parameters ps typeHints f.qualname
             | none => .ok ()) with
      | .error e => .error e
      | .ok _ =>
        match required with
        | some req => validate_required req (nonReturnKeys typeHints) f.qualname
        | none => .ok ()

/-- The JSON schema literal built at function_call.py:107-119. -/
def mkSchema (name description : String) (parameters : List (String × JsonV))
    (required : List String) : JsonV :=
  .obj [("type", .s "function"),
        ("function", .obj
          [("name", .s name),
           ("description", .s description),
           ("parameters", .obj
             [("type", .s "object"),
              ("properties", .obj parameters),
              ("required", .arr (required.map JsonV.s))])])]

/-- `LLMToolParser.parse_func` (function_call.py:59-120): validate,
resolve name (default `__qualname__`), description (default from the
docstring), parameters (default generated from the hints), and required
list (default: all non-return hint keys), then build the schema. -/
def parse_func (f : PyFunc) (name? description? : Option String)
    (required? : Option (List String)) (parameters? : Option (List (String × JsonV))) :
    Except PyErr JsonV :=
  match validate f parameters? required? with
  | .error e => .error e
  | .ok _ =>
    let name := name?.getD f.qualname
    match (match description? with
           | some d => Except.ok d
           | none => get_description f name) with
    | .error e => .error e
    | .ok description =>
      match (match parameters? with
             | some p => Except.ok p
             | none => generate_parameters f) with
      | .error e => .error e
      | .ok parameters =>
        let allParams := nonReturnKeys f.hints
        let required := required?.getD allParams
        .ok (mkSchema name description parameters required)

end LLMToolParser

/-- The tool registry (`LLMToolManager.__init__`, function_call.py:380-382):
`tools` holds the registered JSON schemas, `functions` the name-to-callable
dict. -/
structure LLMToolManager where
  tools : List JsonV
  functions : List (String × PyFunc)

/-- The empty registry produced by `LLMToolManager()`. -/
def LLMToolManager.empty : LLMToolManager :=
  { tools := [], functions := [] }

/-- `LLMToolManager.register` (function_call.py:384-415): generate the
schema via `parse_func`; on success store the callable under the
resolved name (dict assignment — last registration under a name wins)
and append the schema to `tools`. A raised exception (`Except.error`)
propagates before either mutation, so the registry is returned
unchanged in that case. -/
def LLMToolManager.register (m : LLMToolManager) (f : PyFunc)
    (name? description? : Option String) (required? : Option (List String))
    (parameters? : Option (List (String × JsonV))) :
    LLMToolManager × Except PyErr JsonV :=
  match LLMToolParser.parse_func f name? description? required? parameters? with
  | .error e => (m, .error e)
  | .ok schema =>
    let funcName := name?.getD f.qualname
    ({ tools := m.tools ++ [schema],
       functions := insertOrReplace m.functions funcName f },
     .ok schema)

/-- The serialized argument payload of a call request
(`res.arguments`, a JSON source string). The embedding carries the
string together with the outcome `json.loads` has on it instead of a
JSON grammar: `valid args` is a document parsing to the keyword map
`args`, `invalid raw msg` is a document on which `json.loads` raises
`json.JSONDecodeError` with message `msg`. -/
inductive ArgPayload where
  | valid (args : List (String × JsonV))
  | invalid (raw msg : String)

/-- Models `json.loads(res.arguments)` at function_call.py:433. -/
def jsonLoads : ArgPayload → Except PyErr (List (String × JsonV))
  | .valid args => .ok args
  | .invalid _ msg => .error (.jsonDecodeError msg)

/-- The `Function` payload of a tool call (async_client.py:208-210): a
tool name and the serialized arguments string. Named `FnPayload` here
because `Function` is taken in Lean. -/
structure FnPayload where
  name : String
  arguments : ArgPayload

/-- The `FunctionTool` wrapper of a tool call
(async_client.py:212-214): correlation id plus payload. -/
structure FunctionTool where
  id : String
  function : FnPayload

/-- `LLMToolManager.exec` (function_call.py:417-443): parse the
serialized arguments first (`json.loads`), then check registration of
the name (raising `ValueError` when absent), then invoke the callable
with the parsed keyword arguments. `Except.error` models an exception
raised out of `exec`: a parse error, the unknown-name `ValueError`, or
any exception the callable raises — none of them is caught here.
`exec` never mutates the registry. -/
def LLMToolManager.exec (m : LLMToolManager) (res : FnPayload) : Except PyErr JsonV :=
  match jsonLoads res.arguments with
  | .error e => .error e
  | .ok arguments =>
    match alookup m.functions res.name with
    | none => .error (.valueError ("関数 \x27" ++ res.name ++ "\x27 は登録されていません。"))
    | some f =>
      match f.behavior arguments with
      | .ret v => .ok v
      | .exn e => .error e

/-- Models Python `str(e)` on a raised exception (used for the
`f"Error following: {e}"` prompt of example.py:72). -/
def errStr : PyErr → String
  | .typeError msg => msg
  | .valueError msg => msg
  | .jsonDecodeError msg => msg
  | .other _ msg => msg

/-- Minimal model of `json.dumps` (example.py:65). String escaping is
limited to backslash and double quote; `ensure_ascii` transliteration
is not modelled — no theorem below inspects dumped content. -/
def jsonDumps : JsonV → String
  | .s v =>
    let esc := String.mk (v.toList.flatMap fun c =>
      if c = '\\' then ['\\', '\\'] else if c = '"' then ['\\', '"'] else [c])
    "\"" ++ esc ++ "\""
  | .n i => toString i
  | .b true => "true"
  | .b false => "false"
  | .null => "null"
  | .arr xs =>
    "[" ++ String.intercalate ", " ((xs.attach).map fun x => jsonDumps x.1) ++ "]"
  | .obj kvs =>
    "\x7b" ++ String.intercalate ", "
      ((kvs.attach).map fun x => "\"" ++ x.1.1 ++ "\": " ++ jsonDumps x.1.2) ++ "\x7d"
termination_by j => sizeOf j
decreasing_by
  all_goals simp_wf
  all_goals obtain ⟨y, hy⟩ := x
  all_goals have hm := List.sizeOf_lt_of_mem hy
  · simp at hm ⊢; omega
  · obtain ⟨k, v⟩ := y; simp [Prod.mk.sizeOf_spec] at hm ⊢; omega

/-- A conversation message (`self._messages` entries in
async_client.py): role, content, and for tool-role messages the
`tool_call_id`. -/
structure Msg where
  role : String
  content : String
  toolCallId : Option String := none
deriving DecidableEq

/-- The user message appended by `DeepSeekToolUse.tool`
(async_client.py:105). -/
def userMsg (content : String) : Msg :=
  { role := "user", content := content }

/-- The assistant message appended by `DeepSeekToolUse.tool`
(async_client.py:112, `response.choices[0].message.model_dump()`). -/
def assistantMsg (content : String) : Msg :=
  { role := "assistant", content := content }

/-- The tool-role message appended at example.py:62-66. -/
def toolMsg (f : FunctionTool) (funcRes : JsonV) : Msg :=
  { role := "tool", content := jsonDumps funcRes, toolCallId := some f.id }

/-- Modelled from the spec: `append_message`, called on the agent by
`code_generate` (example.py:62) but defined nowhere under `src/`; the
spec describes conversation state as append-only — the message is
appended at the end. -/
def appendMessage (msgs : List Msg) (m : Msg) : List Msg :=
  msgs ++ [m]

/-- Modelled from the spec: `pop_message`, called on the agent by
`code_generate` (example.py:44,71,74) but defined nowhere under `src/`;
the spec's "pop last message" rollback operation — the most recently
appended message is removed. -/
def popMessage (msgs : List Msg) : List Msg :=
  msgs.dropLast

/-- What a model-transport call returns, classified as in
`DeepSeekToolUse.tool` (async_client.py:113-115): assistant content and
`tool_calls` (`none` when the model made no call requests). -/
structure ModelReply where
  content : String
  toolCalls : Option (List FunctionTool)

/-- How one turn of the `code_generate` loop ends: `terminated` models
the `return` on the "COMPLETE" sentinel (example.py:58-60),
`continue_ nextPrompt` models falling through to the next loop
iteration with the given `next_prompt`. -/
inductive TurnOutcome where
  | terminated
  | continue_ (nextPrompt : String)
deriving DecidableEq

/-- Python's `func_res == "COMPLETE"` test (example.py:58): true
exactly when the result is the sentinel string. -/
def isCompleteSentinel : JsonV → Bool
  | .s v => v = "COMPLETE"
  | _ => false

/-- The `for f in function_calls` body of `code_generate`
(example.py:47-75), threading the conversation messages and
`next_prompt`. `confirm i` models the `input("実行しますか?(y)次の指示を:")`
answer for the turn's `i`-th call request. Answer "y": run
`tool_manager.exec`; on the sentinel result "COMPLETE" return at once
(example.py:58-60); on a normal result append the tool message and
continue with the fixed prompt; on a raised exception pop the last
message and continue with an error prompt (example.py:69-72). Any other
answer: skip execution, pop the last message, and use the answer as the
next prompt (example.py:73-75). -/
def runCalls (mgr : LLMToolManager) (msgs : List Msg) (np : String)
    (calls : List FunctionTool) (confirm : Nat → String) (i : Nat) :
    List Msg × TurnOutcome :=
  match calls with
  | [] => (msgs, .continue_ np)
  | f :: rest =>
    if confirm i = "y" then
      match LLMToolManager.exec mgr f.function with
      | .ok funcRes =>
        if isCompleteSentinel funcRes then (msgs, .terminated)
        else
          runCalls mgr (appendMessage msgs (toolMsg f funcRes))
            "please think next action." rest confirm (i + 1)
      | .error e =>
        runCalls mgr (popMessage msgs) ("Error following: " ++ errStr e) rest confirm (i + 1)
    else
      runCalls mgr (popMessage msgs) (confirm i) rest confirm (i + 1)

/-- One iteration of the `for i in range(max_steps)` loop of
`code_generate` (example.py:29-75): `DeepSeekToolUse.tool` appends the
user prompt and the assistant reply to the conversation
(async_client.py:104-115, the transport call itself being external);
with no call requests the assistant message is popped and the operator
supplies the next prompt (example.py:41-45, `opInput`); otherwise the
call requests are processed in order. -/
def codeGenerateTurn (mgr : LLMToolManager) (msgs : List Msg) (prompt : String)
    (reply : ModelReply) (confirm : Nat → String) (opInput : String) :
    List Msg × TurnOutcome :=
  let msgs1 := (msgs ++ [userMsg prompt]) ++ [assistantMsg reply.content]
  match reply.toolCalls with
  | none => (popMessage msgs1, .continue_ opInput)
  | some calls => runCalls mgr msgs1 prompt calls confirm 0

/-- The structured documentation dictionary taken by the `doc`
decorator (function_call.py:4-50). `Option` models presence of the
corresponding key in `doc_dict`. -/
structure DocDict where
  description : Option String
  args : Option (List (String × String))
  returns : Option String
  raisesDocs : Option (List (String × String))

/-- The `doc` decorator's docstring construction
(function_call.py:18-48): description, then an `Args:` section listing
each documented argument with its hinted type (`"Unknown"` when
unhinted), a `Returns:` section with the hinted return type, and a
`Raises:` section. -/
def buildDoc (d : DocDict) (hints : List (String × PyType)) : String :=
  let base := (d.description.getD "") ++ "\n\n"
  let withArgs := match d.args with
    | none => base
    | some argDocs =>
      base ++ "Args:\n" ++ String.join (argDocs.map fun p =>
        let argTypeName := match alookup hints p.1 with
          | some t => LLMToolParser.typeDunderName t
          | none => "Unknown"
        "    " ++ p.1 ++ " (" ++ argTypeName ++ "): " ++ p.2 ++ "\n")
  let withReturns := match d.returns with
    | none => withArgs
    | some r =>
      let returnTypeName := match alookup hints "return" with
        | some t => LLMToolParser.typeDunderName t
        | none => "Unknown"
      withArgs ++ "\nReturns:\n    " ++ returnTypeName ++ ": " ++ r ++ "\n"
  match d.raisesDocs with
  | none => withReturns
  | some raisesDocs =>
    withReturns ++ "\nRaises:\n" ++ String.join (raisesDocs.map fun p =>
      "    " ++ p.1 ++ ": " ++ p.2 ++ "\n")

/-- The `complete` tool (tools.py:219-226): no parameters, `str`
return annotation, docstring built by its `@doc` decorator, and a body
returning the sentinel string "COMPLETE". -/
def completeTool : PyFunc :=
  { qualname := "complete"
    params := []
    doc := some (buildDoc
      { description := some "作業が完了したら呼んでください。"
        args := some []
        returns := some "COMPLETE"
        raisesDocs := some [] }
      [("return", .pyStr)])
    hints := [("return", .pyStr)]
    behavior := fun _ => .ret (.s "COMPLETE") }

/-- Dict field access on a `JsonV` object. -/
def jGet (j : JsonV) (k : String) : Option JsonV :=
  match j with
  | .obj kvs => alookup kvs k
  | _ => none

/-- The string elements of a `JsonV` array, when all elements are
strings. -/
def strsOf : List JsonV → Option (List String)
  | [] => some []
  | .s v :: t => (strsOf t).map (v :: ·)
  | _ => none

/-- The `function.name` field of a tool schema. -/
def schemaName (j : JsonV) : Option String :=
  match (jGet j "function").bind (jGet · "name") with
  | some (.s n) => some n
  | _ => none

/-- The `function.parameters.required` list of a tool schema. -/
def schemaRequired (j : JsonV) : Option (List String) :=
  match ((jGet j "function").bind (jGet · "parameters")).bind (jGet · "required") with
  | some (.arr xs) => strsOf xs
  | _ => none

/-- The keys of the `function.parameters.properties` map of a tool
schema. -/
def schemaPropKeys (j : JsonV) : Option (List String) :=
  match ((jGet j "function").bind (jGet · "parameters")).bind (jGet · "properties") with
  | some (.obj kvs) => some (kvs.map (·.1))
  | _ => none

/-- Whether an `Except` result models a normal (non-raising) return. -/
def isOk {ε α : Type} : Except ε α → Bool
  | .ok _ => true
  | .error _ => false

/-- The schema carried by a successful result. -/
def okSchema {ε : Type} : Except ε JsonV → Option JsonV
  | .ok j => some j
  | .error _ => none

/-- How many schemas of a `tools` list carry the given function name. -/
def countSchemasNamed (tools : List JsonV) (n : String) : Nat :=
  tools.countP fun t => schemaName t = some n

/-- A parameterless tool whose body always raises (used to observe
exception propagation through `exec`): a registered callable that
raises `RuntimeError("boom")` when invoked. -/
def raisingTool : PyFunc :=
  { qualname := "boomer"
    params := []
    doc := some "always fails"
    hints := [("return", .pyStr)]
    behavior := fun _ => .exn (.other "RuntimeError" "boom") }

/-- A registry with only `raisingTool` registered (built through
`register` itself). -/
def mgrRaising : LLMToolManager :=
  (LLMToolManager.empty.register raisingTool none none none none).1

/-- A call request for the unregistered name "foo" with a valid empty
JSON object payload. -/
def fooCall : FnPayload :=
  { name := "foo", arguments := .valid [] }

/-- The claim C3 signature: `(a: int, b: Optional[str]) -> int` with
docstring "doc". -/
def fC3 : PyFunc :=
  { qualname := "f"
    params := ["a", "b"]
    doc := some "doc"
    hints := [("a", .pyInt), ("b", .pyUnion [.pyStr, .pyNone]), ("return", .pyInt)]
    behavior := fun _ => .ret .null }

/-- A partially annotated callable for claim C5: formal parameters
`a, b`, but only `b` and the return carry annotations, so
`get_type_hints` omits `a`. -/
def fC5 : PyFunc :=
  { qualname := "g"
    params := ["a", "b"]
    doc := some "d"
    hints := [("b", .pyInt), ("return", .pyInt)]
    behavior := fun _ => .ret .null }

/-- A fully annotated two-parameter callable `(a: int, b: int) -> int`
used for claims C2 and C8. -/
def fAB : PyFunc :=
  { qualname := "h"
    params := ["a", "b"]
    doc := some "d"
    hints := [("a", .pyInt), ("b", .pyInt), ("return", .pyInt)]
    behavior := fun _ => .ret .null }

/-- A second parameterless callable registered under the same name as
`fAB` for claim C2 (distinct callable: distinct behavior and
docstring). -/
def fDup2 : PyFunc :=
  { qualname := "h2"
    params := []
    doc := some "d2"
    hints := [("return", .pyInt)]
    behavior := fun _ => .ret (.n 2) }

/-- A callable whose single parameter is annotated with a bare class
(`Foo`), for claim C9. -/
def fC9 : PyFunc :=
  { qualname := "k"
    params := ["param1"]
    doc := some "d"
    hints := [("param1", .pyClass "Foo" "<class \x27Foo\x27>"), ("return", .pyInt)]
    behavior := fun _ => .ret .null }

/-- A callable with no return annotation (and one annotated
parameter), for claim C6's witness. -/
def fNoRet : PyFunc :=
  { qualname := "nr"
    params := ["a"]
    doc := some "d"
    hints := [("a", .pyInt)]
    behavior := fun _ => .ret .null }

/-- The initial system message of a conversation
(async_client.py:77). -/
def sysMsg : Msg :=
  { role := "system", content := "sys" }

/-- Two concrete call requests of one model turn, for claim C4. -/
def ftool1 : FunctionTool :=
  { id := "id1", function := { name := "t1", arguments := .valid [] } }

/-- Second concrete call request of the same turn. -/
def ftool2 : FunctionTool :=
  { id := "id2", function := { name := "t2", arguments := .valid [] } }

/-- A call request that invokes the registered `complete` tool. -/
def completeCall : FunctionTool :=
  { id := "idc", function := { name := "complete", arguments := .valid [] } }

/-- A registry with only `completeTool` registered (built through
`register` itself). -/
def mgrComplete : LLMToolManager :=
  (LLMToolManager.empty.register completeTool none none none none).1

/-- A call request for the registered always-raising tool. -/
def boomCall : FnPayload :=
  { name := "boomer", arguments := .valid [] }

/-- The `FunctionTool` wrapper of `boomCall`. -/
def boomFt : FunctionTool :=
  { id := "idb", function := boomCall }

/-- Confirmation answers declining both call requests of a turn with
distinct replacement prompts. -/
def declineBoth : Nat → String :=
  fun i => if i = 0 then "n1" else "n2"

/-- The registry after registering `fAB` and then `fDup2`, both under
the override name "n". -/
def mgrDup : LLMToolManager :=
  ((LLMToolManager.empty.register fAB (some "n") none none none).1.register
    fDup2 (some "n") none none none).1

/-- The schema compiled for `fC5` (with all overrides omitted). -/
def fC5Schema : JsonV :=
  (okSchema (LLMToolParser.parse_func fC5 none none none none)).getD .null

/-- The compilation result for `fAB` with a `parameters` override
naming only `a` (and no `required` override). -/
def c8Result : Except PyErr JsonV :=
  LLMToolParser.parse_func fAB none none none
    (some [("a", JsonV.obj [("type", .s "integer")])])

/-- The message of the `ValueError` raised when compiling `fC9`'s
bare-class parameter annotation. -/
def c9msg : String :=
  "サポートされていない型です: <class \x27Foo\x27>"

/-- The schema compiled for `fAB` with the `required` override
`["a"]` (used as the C8 witness input). -/
def c8WitnessSchema : JsonV :=
  (okSchema (LLMToolParser.parse_func fAB none none (some ["a"]) none)).getD .null

/-! ### Helper lemmas -/

theorem alookup_insertOrReplace_self {α : Type} (l : List (String × α)) (k : String) (v : α) :
    alookup (insertOrReplace l k v) k = some v := by
  induction l with
  | nil => simp [insertOrReplace, alookup]
  | cons p t ih =>
    obtain ⟨k', v'⟩ := p
    by_cases h : k' = k
    · simp [insertOrReplace, h, alookup]
    · simp [insertOrReplace, h, alookup, ih]

theorem countKey_insertOrReplace {α : Type} (l : List (String × α)) (k : String) (v : α)
    (h : countKey l k ≤ 1) : countKey (insertOrReplace l k v) k = 1 := by
  induction l with
  | nil => simp [insertOrReplace, countKey]
  | cons p t ih =>
    obtain ⟨k', v'⟩ := p
    by_cases hk : k' = k
    · simp [insertOrReplace, hk, countKey] at h ⊢
      omega
    · simp [insertOrReplace, hk, countKey] at h ⊢
      exact ih h

theorem memB_eq_true_iff (x : String) (ys : List String) : memB x ys = true ↔ x ∈ ys := by
  induction ys with
  | nil => simp [memB]
  | cons y t ih =>
    simp only [memB, Bool.or_eq_true, beq_iff_eq, ih, List.mem_cons]
    constructor
    · rintro (rfl | h)
      · exact Or.inl rfl
      · exact Or.inr h
    · rintro (rfl | h)
      · exact Or.inl rfl
      · exact Or.inr h

theorem subsetB_eq_true_iff (xs ys : List String) :
    subsetB xs ys = true ↔ ∀ x ∈ xs, x ∈ ys := by
  induction xs with
  | nil => simp [subsetB]
  | cons x t ih => simp [subsetB, memB_eq_true_iff, ih]

theorem subsetB_self (xs : List String) : subsetB xs xs = true :=
  (subsetB_eq_true_iff xs xs).mpr fun _ hx => hx

theorem firstMissingParam_ok_subset (keys allParams : List String) (nm : String)
    (h : LLMToolParser.firstMissingParam keys allParams nm = .ok ()) :
    subsetB keys allParams = true := by
  induction keys with
  | nil => simp [subsetB]
  | cons p t ih =>
    by_cases hm : memB p allParams = true
    · simp only [LLMToolParser.firstMissingParam, hm, if_true] at h
      simp [subsetB, hm, ih h]
    · simp only [LLMToolParser.firstMissingParam, hm, if_false, Bool.false_eq_true] at h
      cases h

theorem validate_type_hints_ok (f : PyFunc) (th : List (String × PyType))
    (h : LLMToolParser.validate_type_hints f = .ok th) : th = f.hints := by
  unfold LLMToolParser.validate_type_hints at h
  split at h
  · cases h
  · split at h
    · cases h
    · cases h
      rfl

theorem validate_ok_required_subset (f : PyFunc) (p? : Option (List (String × JsonV)))
    (req : List String) (u : Unit)
    (h : LLMToolParser.validate f p? (some req) = .ok u) :
    subsetB req (nonReturnKeys f.hints) = true := by
  unfold LLMToolParser.validate at h
  split at h
  · cases h
  · split at h
    · cases h
    · rename_i th hth
      split at h
      · cases h
      · rw [validate_type_hints_ok f th hth] at h
        exact firstMissingParam_ok_subset _ _ _ (by cases u; exact h)

theorem generate_parameters_go_keys (f : PyFunc) (l : List (String × PyType))
    (ps : List (String × JsonV))
    (h : LLMToolParser.generate_parameters_go f l = .ok ps) :
    ps.map (·.1) = nonReturnKeys l := by
  induction l generalizing ps with
  | nil =>
    simp only [LLMToolParser.generate_parameters_go] at h
    cases h
    simp [nonReturnKeys]
  | cons p t ih =>
    obtain ⟨param, ptype⟩ := p
    by_cases hr : param = "return"
    · simp only [LLMToolParser.generate_parameters_go, hr, if_true] at h
      simpa [nonReturnKeys, hr] using ih ps h
    · simp only [LLMToolParser.generate_parameters_go, hr, if_false] at h
      split at h
      · cases h
      · split at h
        · cases h
        · split at h
          · cases h
          · rename_i restParams hrest
            cases h
            simp [nonReturnKeys, hr, ih restParams hrest]

theorem strsOf_map_s (l : List String) : strsOf (l.map JsonV.s) = some l := by
  induction l with
  | nil => rfl
  | cons x t ih => simp [strsOf, ih]

theorem schemaRequired_mkSchema (nm d : String) (ps : List (String × JsonV))
    (req : List String) :
    schemaRequired (LLMToolParser.mkSchema nm d ps req) = some req := by
  show strsOf (req.map JsonV.s) = some req
  exact strsOf_map_s req

theorem schemaPropKeys_mkSchema (nm d : String) (ps : List (String × JsonV))
    (req : List String) :
    schemaPropKeys (LLMToolParser.mkSchema nm d ps req) = some (ps.map (·.1)) := rfl

/-! ### Claim theorems -/

/-- C10: `LLMToolManager.exec` parses the serialized argument payload
(`json.loads`) before looking the requested name up: on a payload that
is not valid JSON, `exec` raises the JSON decode error for every
registry whatsoever — registered or not, the name is never consulted,
no callable is invoked, and the registry (which `exec` never mutates)
is untouched. -/
theorem c10_parse_before_lookup (m : LLMToolManager) (nm raw msg : String) :
    m.exec { name := nm, arguments := .invalid raw msg } =
      .error (.jsonDecodeError msg) := rfl

/-- C7: when a call request of a turn is confirmed and its execution
returns the sentinel result "COMPLETE", the `code_generate` loop
returns immediately (`Terminated`): the conversation state is left as
it was and none of the remaining pending call requests of that turn is
processed — the result does not depend on `rest` at all. -/
theorem c7_complete_sentinel_terminates (mgr : LLMToolManager) (msgs : List Msg)
    (np : String) (c : FunctionTool) (rest : List FunctionTool)
    (confirm : Nat → String) (i : Nat)
    (hy : confirm i = "y")
    (hc : mgr.exec c.function = .ok (.s "COMPLETE")) :
    runCalls mgr msgs np (c :: rest) confirm i = (msgs, .terminated) := by
  simp [runCalls, hy, hc, isCompleteSentinel]

/-- C7 witness: with the `complete` tool of tools.py registered through
`register`, a confirmed turn containing the `complete` request followed
by another pending request terminates at once with the conversation
state unchanged. -/
theorem c7_complete_sentinel_terminates_witness :
    runCalls mgrComplete [sysMsg, userMsg "p", assistantMsg "r"] "p"
      [completeCall, ftool2] (fun _ => "y") 0 =
      ([sysMsg, userMsg "p", assistantMsg "r"], .terminated) :=
  c7_complete_sentinel_terminates mgrComplete _ _ _ _ _ 0 rfl rfl

/-- C6: registering a callable whose `get_type_hints` lack a "return"
entry always fails with the `TypeError` of `validate_type_hints`
(`MissingTypeAnnotation` in the spec's taxonomy) and returns the
registry unchanged: neither the `tools` list nor the `functions` map is
mutated, because `parse_func` raises before either mutation of
`register` runs. -/
theorem c6_missing_return_register_unchanged (m : LLMToolManager) (f : PyFunc)
    (n? d? : Option String) (r? : Option (List String))
    (p? : Option (List (String × JsonV)))
    (h : alookup f.hints "return" = none) :
    m.register f n? d? r? p? =
      (m, .error (.typeError
        (if f.hints.isEmpty then "関数に型ヒントがありません: " ++ f.qualname
         else "関数に戻り値の型ヒントがありません: " ++ f.qualname))) := by
  have hv : LLMToolParser.validate_type_hints f =
      .error (.typeError
        (if f.hints.isEmpty then "関数に型ヒントがありません: " ++ f.qualname
         else "関数に戻り値の型ヒントがありません: " ++ f.qualname)) := by
    by_cases he : f.hints.isEmpty
    · simp [LLMToolParser.validate_type_hints, he]
    · simp [LLMToolParser.validate_type_hints, he, h]
  simp [LLMToolManager.register, LLMToolParser.parse_func, LLMToolParser.validate,
    LLMToolParser.validate_function, hv]

/-- C6 witness: registering `fNoRet` (annotated parameter, no return
annotation) on the empty registry fails with the missing-return
`TypeError` and returns the registry unchanged. -/
theorem c6_missing_return_register_unchanged_witness :
    LLMToolManager.empty.register fNoRet none none none none =
      (LLMToolManager.empty,
       .error (.typeError ("関数に戻り値の型ヒントがありません: nr"))) :=
  c6_missing_return_register_unchanged LLMToolManager.empty fNoRet none none none none rfl

/-- C1 counterexample: `exec` (function_call.py:417-443) does not
return a failure result on an unregistered name and does not catch
callable exceptions — it raises in both situations (`Except.error`
models an exception escaping `exec`). On the unregistered name "foo"
it raises `ValueError`; on the registered always-raising tool the
tool's `RuntimeError` propagates out of `exec` unchanged. This refutes
the claim that `exec` returns `UnknownTool`-tagged failure results
instead of raising and that no exception propagates past the
dispatcher boundary. -/
theorem c1_exec_raises_counterexample :
    LLMToolManager.empty.exec fooCall =
      .error (.valueError "関数 \x27foo\x27 は登録されていません。") ∧
    mgrRaising.exec boomCall = .error (.other "RuntimeError" "boom") :=
  ⟨rfl, rfl⟩

/-- C1 (amended): `exec` raises — `ValueError` for an unregistered
name, and a callable's own exception unchanged — and the `code_generate`
loop (example.py:54-72), not the dispatcher, catches the exception: a
confirmed call whose `exec` raises makes the loop pop the last message
and continue with an error prompt, so the exception stops at the loop's
`try/except`, not at `exec`. The rollback inside the loop uses
`pop_message`, which is modelled from the spec (it is not defined under
`src/`). -/
theorem c1_exec_raises_loop_catches (m : LLMToolManager) (nm : String)
    (args : List (String × JsonV)) :
    (alookup m.functions nm = none →
      m.exec { name := nm, arguments := .valid args } =
        .error (.valueError ("関数 \x27" ++ nm ++ "\x27 は登録されていません。"))) ∧
    (∀ f e, alookup m.functions nm = some f → f.behavior args = .exn e →
      m.exec { name := nm, arguments := .valid args } = .error e) ∧
    (∀ msgs np c rest confirm i e, confirm i = "y" →
      m.exec c.function = .error e →
      runCalls m msgs np (c :: rest) confirm i =
        runCalls m (popMessage msgs) ("Error following: " ++ errStr e) rest confirm (i + 1)) := by
  refine ⟨?_, ?_, ?_⟩
  · intro h
    simp [LLMToolManager.exec, jsonLoads, h]
  · intro f e hf hb
    simp [LLMToolManager.exec, jsonLoads, hf, hb]
  · intro msgs np c rest confirm i e hy he
    simp [runCalls, hy, he]

/-- C1 witness: on concrete registries, the unknown name raises the
`ValueError`, the raising tool's `RuntimeError` propagates, and a turn
confirming the raising call continues with the error prompt after
popping the last message. -/
theorem c1_exec_raises_loop_catches_witness :
    LLMToolManager.empty.exec { name := "foo", arguments := .valid [] } =
      .error (.valueError ("関数 \x27foo\x27 は登録されていません。")) ∧
    mgrRaising.exec { name := "boomer", arguments := .valid [] } =
      .error (.other "RuntimeError" "boom") ∧
    runCalls mgrRaising [sysMsg] "p" [boomFt] (fun _ => "y") 0 =
      ([], .continue_ "Error following: boom") := by
  refine ⟨(c1_exec_raises_loop_catches LLMToolManager.empty "foo" []).1 rfl,
    (c1_exec_raises_loop_catches mgrRaising "boomer" []).2.1 raisingTool _ rfl rfl,
    ?_⟩
  rw [(c1_exec_raises_loop_catches mgrRaising "boomer" []).2.2 [sysMsg] "p" boomFt []
    (fun _ => "y") 0 (.other "RuntimeError" "boom") rfl rfl]
  rfl

/-- C2 counterexample: registering two different callables under the
same override name "n" (no duplicate-name error is raised) leaves TWO
entries named "n" in the exposed `tools` list while the `functions`
map holds the single distinct name — `register` appends a schema per
call (function_call.py:413) with no deduplication, so the schema
collection does not contain exactly one entry per distinct registered
name. -/
theorem c2_duplicate_name_counterexample :
    countSchemasNamed mgrDup.tools "n" = 2 ∧ mgrDup.functions.length = 1 :=
  ⟨by decide, rfl⟩

/-- C2 (amended): after two successful registrations under the same
name, the name-to-callable map holds exactly one entry for that name
and the later callable wins, but the `tools` schema collection grows by
one entry per `register` call, so the duplicated name owns two schema
entries. -/
theorem c2_register_last_wins_tools_append (m : LLMToolManager) (f g : PyFunc)
    (n : String) (d1 d2 : Option String) (r1 r2 : Option (List String))
    (p1 p2 : Option (List (String × JsonV))) (m1 m2 : LLMToolManager) (s1 s2 : JsonV)
    (h1 : m.register f (some n) d1 r1 p1 = (m1, .ok s1))
    (h2 : m1.register g (some n) d2 r2 p2 = (m2, .ok s2))
    (hc : countKey m.functions n ≤ 1) :
    alookup m2.functions n = some g ∧ countKey m2.functions n = 1 ∧
      m2.tools.length = m.tools.length + 2 := by
  unfold LLMToolManager.register at h1 h2
  split at h1
  · simp at h1
  · simp only [Prod.mk.injEq] at h1
    obtain ⟨hm1, _⟩ := h1
    subst hm1
    split at h2
    · simp at h2
    · simp only [Prod.mk.injEq] at h2
      obtain ⟨hm2, _⟩ := h2
      subst hm2
      refine ⟨alookup_insertOrReplace_self _ _ _, ?_, by simp⟩
      exact countKey_insertOrReplace _ _ _ (le_of_eq (countKey_insertOrReplace _ _ _ hc))

/-- C2 witness: on the concrete duplicate registration of `fAB` and
`fDup2` under "n", the final map binds "n" to `fDup2` once and the
tools list holds two entries. -/
theorem c2_register_last_wins_tools_append_witness :
    alookup mgrDup.functions "n" = some fDup2 ∧ countKey mgrDup.functions "n" = 1 ∧
      mgrDup.tools.length = LLMToolManager.empty.tools.length + 2 :=
  c2_register_last_wins_tools_append LLMToolManager.empty fAB fDup2 "n"
    none none none none none none _ mgrDup _ _ rfl rfl (by decide)

/-- C3 counterexample: compiling `(a: int, b: Optional[str]) -> int`
with no overrides does NOT yield `required = ["a"]`: `parse_func`
defaults `required` to every non-return hinted parameter
(function_call.py:103-105), so the optional parameter `b` is required
too. -/
theorem c3_required_counterexample :
    (okSchema (LLMToolParser.parse_func fC3 none none none none)).bind schemaRequired ≠
      some ["a"] := by decide

/-- C3 (amended): compiling `(a: int, b: Optional[str]) -> int` with no
overrides yields parameters `a: integer` and `b: string` (the
`Optional` wrapper is unwrapped to its non-None member by
`extract_non_none_type_if_optional`, not wrapped in the schema), but
`required = ["a", "b"]` — the optional parameter is NOT omitted from
the required set. -/
theorem c3_optional_unwrapped_but_required :
    LLMToolParser.parse_func fC3 none none none none =
      .ok (LLMToolParser.mkSchema "f" "doc"
        [("a", .obj [("description", .s "a: int"), ("type", .s "integer")]),
         ("b", .obj [("description", .s "b: str"), ("type", .s "string")])]
        ["a", "b"]) := rfl

/-- C4 counterexample: in a turn whose model response carries two call
requests, declining both pops one message per decline
(example.py:73-75), so the final conversation length (1: just the
system message — even the user prompt got popped) differs from the
length just before the speculative assistant message was appended (2:
system message plus user prompt). The rollback of a declined request is
not exact in general. -/
theorem c4_decline_rollback_counterexample :
    (codeGenerateTurn LLMToolManager.empty [sysMsg] "p"
      { content := "r", toolCalls := some [ftool1, ftool2] } declineBoth "op").1.length ≠
      ([sysMsg] ++ [userMsg "p"]).length := by decide

/-- C4 (amended): declining skips execution, pops the most recent
message, and feeds the decliner's text as the next prompt; when the
turn carries exactly ONE call request and it is declined, the rollback
is exact — the conversation is exactly its state from just before the
speculative assistant message was appended (the user prompt remains) —
but each further decline or prior execution in the same turn shifts
what the single pop removes. The pop operation (`pop_message`) is
modelled from the spec, being called but not defined under `src/`. -/
theorem c4_single_decline_exact_rollback (mgr : LLMToolManager) (msgs : List Msg)
    (prompt content : String) (c : FunctionTool) (confirm : Nat → String) (op : String)
    (h : ¬ confirm 0 = "y") :
    codeGenerateTurn mgr msgs prompt { content := content, toolCalls := some [c] } confirm op =
      (msgs ++ [userMsg prompt], .continue_ (confirm 0)) := by
  simp [codeGenerateTurn, runCalls, h, popMessage, List.dropLast_concat]

/-- C4 witness: a concrete single-request turn declined with "n1"
rolls back to exactly the pre-assistant state. -/
theorem c4_single_decline_exact_rollback_witness :
    codeGenerateTurn LLMToolManager.empty [sysMsg] "p"
      { content := "r", toolCalls := some [ftool1] } declineBoth "op" =
      ([sysMsg, userMsg "p"], .continue_ "n1") := by
  have h := c4_single_decline_exact_rollback LLMToolManager.empty [sysMsg] "p" "r"
    ftool1 declineBoth "op" (by decide)
  simpa [declineBoth] using h

/-- C5 counterexample: `fC5` has the formal parameter `a` with no type
annotation (absent from its `get_type_hints`), yet registration
SUCCEEDS — `validate_type_hints` only checks that the hints are
non-empty and contain a return entry (function_call.py:161-169) — and
the registered schema's parameter map silently omits `a`, listing only
`b`. This refutes the claim that such a registration fails with
`MissingTypeAnnotation`. -/
theorem c5_unannotated_param_counterexample :
    isOk (LLMToolManager.empty.register fC5 none none none none).2 = true ∧
    (okSchema (LLMToolManager.empty.register fC5 none none none none).2).bind
      schemaPropKeys = some ["b"] ∧
    memB "a" fC5.params = true ∧
    alookup fC5.hints "a" = none :=
  ⟨rfl, rfl, rfl, rfl⟩

/-- C5 (amended): the type-hint validation passes for ANY callable
whose hints are non-empty and include a return entry — per-parameter
annotation coverage is never checked — and every schema compiled
without a `parameters` override draws its parameter keys exactly from
the hinted (annotated) non-return parameters, so unannotated formal
parameters are silently omitted from the schema. -/
theorem c5_partial_annotation_registers (f : PyFunc) (d? : Option String)
    (hne : f.hints.isEmpty = false)
    (hret : (alookup f.hints "return").isNone = false) :
    LLMToolParser.validate_type_hints f = .ok f.hints ∧
    (∀ s, LLMToolParser.parse_func f none d? none none = .ok s →
      schemaPropKeys s = some (nonReturnKeys f.hints)) := by
  constructor
  · simp [LLMToolParser.validate_type_hints, hne, hret]
  · intro s h
    simp only [LLMToolParser.parse_func] at h
    split at h
    · cases h
    · split at h
      · cases h
      · split at h
        · cases h
        · rename_i ps hps
          injection h with h'
          subst h'
          rw [schemaPropKeys_mkSchema]
          rw [generate_parameters_go_keys f f.hints ps
            (by simpa [LLMToolParser.generate_parameters] using hps)]

/-- C5 amended witness: `fC5` (unannotated `a`) passes the type-hint
validation and compiles to a schema whose parameter keys are exactly
its hinted non-return parameters, `["b"]`. -/
theorem c5_partial_annotation_registers_witness :
    LLMToolParser.validate_type_hints fC5 = .ok fC5.hints ∧
    (∀ s, LLMToolParser.parse_func fC5 none none none none = .ok s →
      schemaPropKeys s = some (nonReturnKeys fC5.hints)) :=
  c5_partial_annotation_registers fC5 none rfl rfl

/-- C8 counterexample: compiling `fAB` (`(a: int, b: int) -> int`) with
a `parameters` override naming only `a` — a valid override, since `a`
is a signature parameter — and no `required` override produces a schema
whose `required` list `["a", "b"]` (defaulted to ALL signature
parameters, function_call.py:103-105) is NOT a subset of its parameter
keys `["a"]`. The required-subset invariant fails for override-carrying
registrations. -/
theorem c8_override_required_subset_counterexample :
    (okSchema c8Result).bind schemaRequired = some ["a", "b"] ∧
    (okSchema c8Result).bind schemaPropKeys = some ["a"] ∧
    subsetB ["a", "b"] ["a"] = false :=
  ⟨rfl, rfl, rfl⟩

/-- C8 (amended): every schema compiled WITHOUT a `parameters` override
(any name/description/required overrides allowed) has a `required`
list that is a subset of its parameter keys: the parameter keys are
then exactly the non-return hinted parameters, the defaulted `required`
list is that same set, and a `required` override is validated to
mention only signature parameters. With a `parameters` override the
`required` list is validated against the signature only, so it may name
parameters absent from the overridden map. -/
theorem c8_required_subset_without_override (f : PyFunc) (n? d? : Option String)
    (r? : Option (List String)) (s : JsonV)
    (h : LLMToolParser.parse_func f n? d? r? none = .ok s) :
    ∃ req keys, schemaRequired s = some req ∧ schemaPropKeys s = some keys ∧
      subsetB req keys = true := by
  simp only [LLMToolParser.parse_func] at h
  split at h
  · cases h
  · rename_i u hval
    split at h
    · cases h
    · split at h
      · cases h
      · rename_i ps hps
        injection h with h'
        subst h'
        refine ⟨_, _, schemaRequired_mkSchema _ _ _ _, schemaPropKeys_mkSchema _ _ _ _, ?_⟩
        rw [generate_parameters_go_keys f f.hints ps
          (by simpa [LLMToolParser.generate_parameters] using hps)]
        cases r? with
        | none => exact subsetB_self (nonReturnKeys f.hints)
        | some req => exact validate_ok_required_subset f none req u hval

/-- C8 witness: compiling `fAB` with the `required` override `["a"]`
(and no `parameters` override) yields a schema whose required list is a
subset of its parameter keys. -/
theorem c8_required_subset_without_override_witness :
    ∃ req keys, schemaRequired c8WitnessSchema = some req ∧
      schemaPropKeys c8WitnessSchema = some keys ∧ subsetB req keys = true :=
  c8_required_subset_without_override fAB none none (some ["a"]) c8WitnessSchema rfl

/-- C9 counterexample: compiling the parameter `param1` of `fC9`, whose
declared type is the bare class `Foo`, raises the `ValueError` of
`convert_python_type_to_json_schema_type` (function_call.py:326) whose
message names the offending type but does NOT contain the offending
parameter name `param1` — no error message of the type-conversion path
mentions the parameter. -/
theorem c9_error_names_type_not_param_counterexample :
    LLMToolParser.generate_parameters fC9 = .error (.valueError c9msg) ∧
    strContains c9msg "param1" = false ∧
    strContains c9msg "<class \x27Foo\x27>" = true :=
  ⟨rfl, by decide, by decide⟩

/-- C9 (amended): an unsupported shape fails with `ValueError`
(`UnsupportedType`): a bare class raises with a message naming the
class's `str()` form, a `Union` surviving the optional-unwrap step
raises with a message naming the union, and `generate_parameters`
propagates the conversion error for the offending parameter unchanged —
so the error names the offending type but not the offending
parameter. -/
theorem c9_unsupported_type_names_type_only (nm reprStr : String) (ts : List PyType)
    (f : PyFunc) (param : String) (rest : List (String × PyType))
    (h : ¬ param = "return") :
    LLMToolParser.convert_python_type_to_json_schema_type (.pyClass nm reprStr) =
      .error (.valueError ("サポートされていない型です: " ++ reprStr)) ∧
    LLMToolParser.convert_python_type_to_json_schema_type (.pyUnion ts) =
      .error (.valueError ("サポートされていない複数Unionです: " ++
        pyTypeStr true (.pyUnion ts))) ∧
    LLMToolParser.generate_parameters_go f ((param, .pyClass nm reprStr) :: rest) =
      .error (.valueError ("サポートされていない型です: " ++ reprStr)) := by
  refine ⟨rfl, rfl, ?_⟩
  simp [LLMToolParser.generate_parameters_go, h,
    LLMToolParser.extract_non_none_type_if_optional,
    LLMToolParser.convert_python_type_to_json_schema_type]

/-- C9 amended witness: the concrete `fC9` parameter list (head
parameter `param1` of class type `Foo`) exercises all three parts. -/
theorem c9_unsupported_type_names_type_only_witness :
    LLMToolParser.convert_python_type_to_json_schema_type
        (.pyClass "Foo" "<class \x27Foo\x27>") =
      .error (.valueError ("サポートされていない型です: " ++ "<class \x27Foo\x27>")) ∧
    LLMToolParser.convert_python_type_to_json_schema_type (.pyUnion [.pyInt, .pyStr]) =
      .error (.valueError ("サポートされていない複数Unionです: " ++
        pyTypeStr true (.pyUnion [.pyInt, .pyStr]))) ∧
    LLMToolParser.generate_parameters_go fC9
        [("param1", .pyClass "Foo" "<class \x27Foo\x27>")] =
      .error (.valueError ("サポートされていない型です: " ++ "<class \x27Foo\x27>")) :=
  c9_unsupported_type_names_type_only "Foo" "<class \x27Foo\x27>" [.pyInt, .pyStr]
    fC9 "param1" [] (by decide)
